import Mathlib

/-!
Verification of the MelaScalp triage engine (`src/triage_engine.py`).

The engine is a pure, rule-based classifier: a normalized questionnaire input
is run through a fixed chain of eight condition rules (first match wins, with
an `unclear` fallback), then through a safety referral override.  This file
gives a shallow embedding of that engine and proves the specified properties.

Modelling notes:
* `TriageInput` is the normalized input produced by `_parse_input`
  (lower-cased, trimmed tokens).  `parseInput`/`classifyRaw` embed the
  normalization itself; the engine proper (`classify`) is stated over
  `TriageInput`, quantified over all token lists, which subsumes every
  reachable normalized input.
* Python `any(s in data.symptoms for s in toks)` is `anyIn toks data.symptoms`.
* `_calculate_confidence` computes `(score / max_score) * 100` in IEEE double
  precision and compares against 70 and 40.  Here it is embedded as the exact
  rational comparison `100 * score ≥ 70 * max_score` (resp. `40 *`).  For every
  `(score, max_score)` pair reachable in this program the two agree: the only
  pairs where the exact percentage hits a band boundary are `(7, 10)` and
  `(4, 10)`, and the double products `(7/10)*100` and `(4/10)*100` round to
  exactly `70.0` and `40.0`, so the float comparison matches the exact one.
* `severity_score` is a Python `int` that only ever holds small non-negative
  values; it is embedded as `Nat`.
-/

inductive ConditionLabel where
  | SEBORRHEIC_DERMATITIS
  | FOLLICULITIS
  | PSORIASIS
  | SCALP_ACNE
  | TENSION_DAMAGE
  | PRODUCT_BUILDUP
  | DRY_SCALP
  | CONTACT_DERMATITIS
  | UNCLEAR
deriving DecidableEq, Repr

/-- The string value of each `ConditionLabel` enum member. -/
def ConditionLabel.value : ConditionLabel → String
  | .SEBORRHEIC_DERMATITIS => "seborrheic_dermatitis"
  | .FOLLICULITIS => "folliculitis"
  | .PSORIASIS => "psoriasis"
  | .SCALP_ACNE => "scalp_acne"
  | .TENSION_DAMAGE => "tension_damage"
  | .PRODUCT_BUILDUP => "product_buildup"
  | .DRY_SCALP => "dry_scalp"
  | .CONTACT_DERMATITIS => "contact_dermatitis"
  | .UNCLEAR => "unclear"

inductive ConfidenceLevel where
  | LOW
  | MODERATE
  | HIGH
deriving DecidableEq, Repr

/-- The string value of each `ConfidenceLevel` enum member. -/
def ConfidenceLevel.value : ConfidenceLevel → String
  | .LOW => "low"
  | .MODERATE => "moderate"
  | .HIGH => "high"

/-- Structured input from the user quiz (after `_parse_input` normalization). -/
structure TriageInput where
  symptoms : List String
  style_type : String
  wash_frequency : String
  product_use : List String
  known_issues : List String
  image_uploaded : Bool := false
deriving DecidableEq, Repr

/-- Triage classification result (`TriageResult` dataclass). -/
structure TriageResult where
  condition_label : String
  care_plan_id : String
  referral_required : Bool
  confidence_level : String
  reasoning : String
  severity_score : Nat
deriving DecidableEq, Repr

/-- `MelaScalpTriageEngine.CARE_PLANS`: approved care plan mappings. -/
def CARE_PLANS : ConditionLabel → String
  | .SEBORRHEIC_DERMATITIS => "CP-001"
  | .FOLLICULITIS => "CP-002"
  | .PSORIASIS => "CP-003"
  | .SCALP_ACNE => "CP-004"
  | .TENSION_DAMAGE => "CP-005"
  | .PRODUCT_BUILDUP => "CP-006"
  | .DRY_SCALP => "CP-006"
  | .CONTACT_DERMATITIS => "CP-007"
  | .UNCLEAR => "CP-999"

/-- `PROTECTIVE_STYLES`: protective/tight hairstyles. -/
def PROTECTIVE_STYLES : List String :=
  ["braids", "cornrows", "weave", "extensions", "locs",
   "twists", "faux_locs", "crochet", "tight_ponytail"]

/-- `LOW_WASH_FREQUENCIES`: low wash frequencies. -/
def LOW_WASH_FREQUENCIES : List String := ["biweekly", "monthly", "less_than_monthly"]

/-- `HEAVY_PRODUCTS`: heavy styling products. -/
def HEAVY_PRODUCTS : List String := ["edge_control", "pomade", "grease", "gel", "wax"]

/-- Python `any(s in l for s in tokens)`. -/
def anyIn (tokens l : List String) : Bool :=
  tokens.any (fun t => decide (t ∈ l))

/-- Python `bool(set(product_use) & HEAVY_PRODUCTS)`. -/
def usesHeavy (product_use : List String) : Bool :=
  product_use.any (fun p => decide (p ∈ HEAVY_PRODUCTS))

/-- `sub` is a prefix of the character list. -/
def charsPre : List Char → List Char → Bool
  | [], _ => true
  | _ :: _, [] => false
  | a :: as, b :: bs => a == b && charsPre as bs

/-- `sub` occurs as a contiguous substring of the character list. -/
def charsSub (sub : List Char) : List Char → Bool
  | [] => sub.isEmpty
  | b :: bs => charsPre sub (b :: bs) || charsSub sub bs

/-- Python `"oil" in p` (substring containment). -/
def containsOil (p : String) : Bool :=
  charsSub "oil".toList p.toList

/-- `_calculate_confidence` (see the float-semantics note in the header). -/
def calculateConfidence (score max_score : Nat) : String :=
  if 100 * score ≥ 70 * max_score then ConfidenceLevel.HIGH.value
  else if 100 * score ≥ 40 * max_score then ConfidenceLevel.MODERATE.value
  else ConfidenceLevel.LOW.value

/-- Folliculitis indicator: bumps tokens. -/
def follHasBumps (data : TriageInput) : Bool :=
  anyIn ["bumps", "pustules", "pimples", "small_bumps", "infected_bumps"] data.symptoms

/-- Folliculitis indicator: pain tokens. -/
def follHasPain (data : TriageInput) : Bool :=
  anyIn ["pain", "painful", "tenderness", "tender", "sore", "soreness"] data.symptoms

/-- Shared indicator: `data.style_type in PROTECTIVE_STYLES`. -/
def hasProtectiveStyle (data : TriageInput) : Bool :=
  decide (data.style_type ∈ PROTECTIVE_STYLES)

/-- Folliculitis indicator: inflammation tokens. -/
def follHasInflammation (data : TriageInput) : Bool :=
  anyIn ["redness", "swelling", "hot", "warm", "inflamed"] data.symptoms

/-- `_check_folliculitis` score accumulation. -/
def folliculitisScore (data : TriageInput) : Nat :=
  (if follHasBumps data then 3 else 0) +
  (if follHasPain data then 3 else 0) +
  (if hasProtectiveStyle data then 2 else 0) +
  (if follHasInflammation data then 2 else 0)

/-- `_check_folliculitis` (priority 1). -/
def checkFolliculitis (data : TriageInput) : Option TriageResult :=
  if folliculitisScore data ≥ 5 then
    some {
      condition_label := ConditionLabel.FOLLICULITIS.value
      care_plan_id := CARE_PLANS ConditionLabel.FOLLICULITIS
      referral_required := true
      confidence_level := calculateConfidence (folliculitisScore data) 10
      reasoning := "Bumps and pain with " ++ data.style_type ++
        " styling suggest folliculitis. This requires professional evaluation to prevent scarring."
      severity_score := 8 }
  else none

/-- Psoriasis indicator: scale tokens. -/
def psoHasScales (data : TriageInput) : Bool :=
  anyIn ["scales", "scaling", "thick_scales", "silvery_scales",
         "scale_patches", "plaques"] data.symptoms

/-- Psoriasis indicator: dryness tokens. -/
def psoHasDryness (data : TriageInput) : Bool :=
  anyIn ["dryness", "dry", "very_dry", "cracking"] data.symptoms

/-- Psoriasis indicator: `"psoriasis" in data.known_issues`. -/
def knownPsoriasis (data : TriageInput) : Bool :=
  decide ("psoriasis" ∈ data.known_issues)

/-- Psoriasis indicator: itching tokens. -/
def psoHasItching (data : TriageInput) : Bool :=
  anyIn ["itching", "itchy", "irritation"] data.symptoms

/-- `_check_psoriasis` score accumulation. -/
def psoriasisScore (data : TriageInput) : Nat :=
  (if knownPsoriasis data then 5 else 0) +
  (if psoHasScales data then 4 else 0) +
  (if psoHasDryness data then 2 else 0) +
  (if psoHasItching data then 1 else 0)

/-- `_check_psoriasis` (priority 2). -/
def checkPsoriasis (data : TriageInput) : Option TriageResult :=
  if psoriasisScore data ≥ 5 then
    some {
      condition_label := ConditionLabel.PSORIASIS.value
      care_plan_id := CARE_PLANS ConditionLabel.PSORIASIS
      referral_required := true
      confidence_level := calculateConfidence (psoriasisScore data) 12
      reasoning :=
        if knownPsoriasis data then
          "Known psoriasis history with matching symptoms requires dermatologist management."
        else
          "Thick scaling and dryness patterns suggest psoriasis. Professional diagnosis recommended."
      severity_score := 7 }
  else none

/-- Tension-damage indicator: tenderness tokens. -/
def tenHasTenderness (data : TriageInput) : Bool :=
  anyIn ["tenderness", "tender", "sore", "soreness", "pain", "painful"] data.symptoms

/-- Tension-damage indicator: hair-loss tokens. -/
def tenHasHairLoss (data : TriageInput) : Bool :=
  anyIn ["hair_loss", "thinning", "bald_spots", "edges_thinning", "breakage"] data.symptoms

/-- Tension-damage indicator: bumps tokens (disqualifier). -/
def tenHasBumps (data : TriageInput) : Bool :=
  anyIn ["bumps", "pustules", "pimples"] data.symptoms

/-- `_check_tension_damage` score accumulation. -/
def tensionScore (data : TriageInput) : Nat :=
  (if tenHasTenderness data && hasProtectiveStyle data then 5 else 0) +
  (if tenHasHairLoss data then 4 else 0) +
  (if tenHasTenderness data && !tenHasBumps data then 2 else 0)

/-- `_check_tension_damage` (priority 3); bumps disqualify regardless of score. -/
def checkTensionDamage (data : TriageInput) : Option TriageResult :=
  if tensionScore data ≥ 5 && !tenHasBumps data then
    some {
      condition_label := ConditionLabel.TENSION_DAMAGE.value
      care_plan_id := CARE_PLANS ConditionLabel.TENSION_DAMAGE
      referral_required := true
      confidence_level := calculateConfidence (tensionScore data) 11
      reasoning := "Scalp tenderness with " ++ data.style_type ++
        " suggests tension damage. Consult a professional to prevent traction alopecia."
      severity_score := 7 }
  else none

/-- Seborrheic-dermatitis indicator: itching tokens. -/
def sebHasItching (data : TriageInput) : Bool :=
  anyIn ["itching", "itchy", "irritation", "scratchy"] data.symptoms

/-- Seborrheic-dermatitis indicator: flaking tokens. -/
def sebHasFlaking (data : TriageInput) : Bool :=
  anyIn ["flaking", "flakes", "dandruff", "white_flakes", "yellow_flakes"] data.symptoms

/-- Seborrheic-dermatitis indicator: oily tokens. -/
def sebHasOily (data : TriageInput) : Bool :=
  anyIn ["oily", "greasy", "oily_flakes"] data.symptoms

/-- Seborrheic-dermatitis indicator: `"redness" in symptoms or "red" in symptoms`. -/
def sebHasRedness (data : TriageInput) : Bool :=
  decide ("redness" ∈ data.symptoms) || decide ("red" ∈ data.symptoms)

/-- `_check_seborrheic_dermatitis` score accumulation. -/
def sebScore (data : TriageInput) : Nat :=
  (if sebHasItching data && sebHasFlaking data then 5
   else if sebHasItching data || sebHasFlaking data then 2 else 0) +
  (if sebHasOily data then 2 else 0) +
  (if sebHasRedness data then 1 else 0)

/-- Seborrheic-dermatitis referral condition. -/
def sebNeedsReferral (data : TriageInput) : Bool :=
  anyIn ["severe", "worsening", "bleeding", "crusting"] data.symptoms ||
  decide ("eczema" ∈ data.known_issues)

/-- `_check_seborrheic_dermatitis` (priority 4). -/
def checkSeborrheicDermatitis (data : TriageInput) : Option TriageResult :=
  if sebScore data ≥ 4 then
    some {
      condition_label := ConditionLabel.SEBORRHEIC_DERMATITIS.value
      care_plan_id := CARE_PLANS ConditionLabel.SEBORRHEIC_DERMATITIS
      referral_required := sebNeedsReferral data
      confidence_level := calculateConfidence (sebScore data) 10
      reasoning :=
        "Itching and flaking are classic signs of seborrheic dermatitis. Often manageable with medicated shampoos."
      severity_score := if !sebNeedsReferral data then 4 else 6 }
  else none

/-- Contact-dermatitis indicator: itching tokens. -/
def conHasItching (data : TriageInput) : Bool :=
  anyIn ["itching", "itchy", "burning"] data.symptoms

/-- Contact-dermatitis indicator: redness tokens. -/
def conHasRedness (data : TriageInput) : Bool :=
  anyIn ["redness", "red", "inflamed"] data.symptoms

/-- Contact-dermatitis indicator: bumps tokens. -/
def conHasBumps (data : TriageInput) : Bool :=
  anyIn ["bumps", "rash", "hives"] data.symptoms

/-- Contact-dermatitis indicator: timing tokens. -/
def conRecentChange (data : TriageInput) : Bool :=
  anyIn ["new_product", "recent_reaction", "sudden_onset"] data.symptoms

/-- `_check_contact_dermatitis` score accumulation. -/
def contactScore (data : TriageInput) : Nat :=
  (if conHasItching data && conHasRedness data then 3 else 0) +
  (if conHasBumps data && !anyIn ["pustules", "pus"] data.symptoms then 2 else 0) +
  (if usesHeavy data.product_use || conRecentChange data then 2 else 0)

/-- `_check_contact_dermatitis` (priority 5). -/
def checkContactDermatitis (data : TriageInput) : Option TriageResult :=
  if contactScore data ≥ 4 then
    some {
      condition_label := ConditionLabel.CONTACT_DERMATITIS.value
      care_plan_id := CARE_PLANS ConditionLabel.CONTACT_DERMATITIS
      referral_required := false
      confidence_level := calculateConfidence (contactScore data) 7
      reasoning :=
        "Symptoms suggest possible contact dermatitis from hair products. Consider eliminating products one at a time."
      severity_score := 4 }
  else none

/-- Scalp-acne indicator: bumps tokens. -/
def acneHasBumps (data : TriageInput) : Bool :=
  anyIn ["bumps", "pimples", "small_bumps"] data.symptoms

/-- Scalp-acne indicator: oily tokens. -/
def acneHasOily (data : TriageInput) : Bool :=
  anyIn ["oily", "greasy"] data.symptoms

/-- Scalp-acne indicator: absence of pain tokens. -/
def acneNoPain (data : TriageInput) : Bool :=
  !anyIn ["pain", "painful", "tender", "sore"] data.symptoms

/-- `_check_scalp_acne` score accumulation. -/
def acneScore (data : TriageInput) : Nat :=
  (if acneHasBumps data && acneNoPain data then 3 else 0) +
  (if acneHasOily data then 2 else 0) +
  (if usesHeavy data.product_use then 2 else 0) +
  (if !hasProtectiveStyle data then 1 else 0)

/-- `_check_scalp_acne` (priority 6). -/
def checkScalpAcne (data : TriageInput) : Option TriageResult :=
  if acneScore data ≥ 4 then
    some {
      condition_label := ConditionLabel.SCALP_ACNE.value
      care_plan_id := CARE_PLANS ConditionLabel.SCALP_ACNE
      referral_required := false
      confidence_level := calculateConfidence (acneScore data) 8
      reasoning :=
        "Bumps and product buildup suggest scalp acne. Try clarifying shampoo and reducing heavy products."
      severity_score := 3 }
  else none

/-- Product-buildup indicator: flaking tokens. -/
def pbHasFlaking (data : TriageInput) : Bool :=
  anyIn ["flaking", "flakes", "buildup"] data.symptoms

/-- Shared indicator: `data.wash_frequency in LOW_WASH_FREQUENCIES`. -/
def lowWash (data : TriageInput) : Bool :=
  decide (data.wash_frequency ∈ LOW_WASH_FREQUENCIES)

/-- Product-buildup indicator: `"itching" in symptoms or "itchy" in symptoms`. -/
def pbHasItching (data : TriageInput) : Bool :=
  decide ("itching" ∈ data.symptoms) || decide ("itchy" ∈ data.symptoms)

/-- `_check_product_buildup` score accumulation. -/
def buildupScore (data : TriageInput) : Nat :=
  (if pbHasFlaking data && !pbHasItching data then 3 else 0) +
  (if usesHeavy data.product_use && lowWash data then 3 else 0) +
  (if data.product_use.length ≥ 3 then 1 else 0)

/-- `_check_product_buildup` (priority 7). -/
def checkProductBuildup (data : TriageInput) : Option TriageResult :=
  if buildupScore data ≥ 4 then
    some {
      condition_label := ConditionLabel.PRODUCT_BUILDUP.value
      care_plan_id := CARE_PLANS ConditionLabel.PRODUCT_BUILDUP
      referral_required := false
      confidence_level := calculateConfidence (buildupScore data) 7
      reasoning :=
        "Product buildup from styling products. Consider clarifying treatments and adjusting wash routine."
      severity_score := 2 }
  else none

/-- Dry-scalp indicator: dryness tokens. -/
def dryHasDryness (data : TriageInput) : Bool :=
  anyIn ["dryness", "dry", "tight", "flaking"] data.symptoms

/-- Dry-scalp indicator: `len(data.symptoms) <= 2`. -/
def minimalSymptoms (data : TriageInput) : Bool :=
  decide (data.symptoms.length ≤ 2)

/-- Dry-scalp indicator: no product token contains `"oil"`. -/
def noOilProduct (data : TriageInput) : Bool :=
  !data.product_use.any (fun p => containsOil p)

/-- `_check_dry_scalp` score accumulation. -/
def dryScore (data : TriageInput) : Nat :=
  (if dryHasDryness data then 3 else 0) +
  (if lowWash data && noOilProduct data then 2 else 0) +
  (if minimalSymptoms data then 1 else 0)

/-- `_check_dry_scalp` (priority 8); note the hard-coded moderate confidence. -/
def checkDryScalp (data : TriageInput) : Option TriageResult :=
  if dryScore data ≥ 3 then
    some {
      condition_label := ConditionLabel.DRY_SCALP.value
      care_plan_id := CARE_PLANS ConditionLabel.DRY_SCALP
      referral_required := false
      confidence_level := ConfidenceLevel.MODERATE.value
      reasoning := "Dry scalp symptoms. Increase moisture with oils and gentle cleansing."
      severity_score := 2 }
  else none

/-- An apostrophe character, used in the fallback reasoning text. -/
def apos : String := String.singleton (Char.ofNat 39)

/-- `_create_unclear_result`: fallback for unclear cases. -/
def createUnclearResult (_data : TriageInput) : TriageResult :=
  { condition_label := ConditionLabel.UNCLEAR.value
    care_plan_id := CARE_PLANS ConditionLabel.UNCLEAR
    referral_required := true
    confidence_level := ConfidenceLevel.LOW.value
    reasoning := "Symptoms don" ++ apos ++
      "t clearly match a single condition. Professional evaluation recommended for accurate diagnosis."
    severity_score := 5 }

/-- `_run_decision_tree`: rules checked in priority order, first match wins. -/
def runDecisionTree (data : TriageInput) : TriageResult :=
  match checkFolliculitis data with
  | some r => r
  | none =>
  match checkPsoriasis data with
  | some r => r
  | none =>
  match checkTensionDamage data with
  | some r => r
  | none =>
  match checkSeborrheicDermatitis data with
  | some r => r
  | none =>
  match checkContactDermatitis data with
  | some r => r
  | none =>
  match checkScalpAcne data with
  | some r => r
  | none =>
  match checkProductBuildup data with
  | some r => r
  | none =>
  match checkDryScalp data with
  | some r => r
  | none => createUnclearResult data

/-- Severe symptoms which trigger the referral override. -/
def severeSymptomTokens : List String :=
  ["bleeding", "pus", "oozing", "crusting", "severe",
   "worsening", "spreading", "fever"]

/-- Override trigger: severe symptom tokens present. -/
def severeSymptoms (data : TriageInput) : Bool :=
  anyIn severeSymptomTokens data.symptoms

/-- Override trigger: hair loss together with pain. -/
def hairLossWithPain (data : TriageInput) : Bool :=
  anyIn ["hair_loss", "bald_spots"] data.symptoms &&
  anyIn ["pain", "tenderness"] data.symptoms

/-- Override trigger: known chronic condition. -/
def knownChronicCondition (data : TriageInput) : Bool :=
  anyIn ["psoriasis", "eczema", "lupus", "autoimmune"] data.known_issues

/-- The fixed urgent-notice sentence appended by the severe-symptom override. -/
def urgentNotice : String :=
  " URGENT: Severe symptoms require immediate professional evaluation."

/-- The fixed monitoring-notice sentence appended by the chronic-condition override. -/
def monitorNotice : String :=
  " Note: Known condition warrants professional monitoring."

/-- First if-block of `_apply_referral_rules`: the severe-symptom override. -/
def applySevereOverride (result : TriageResult) (data : TriageInput) : TriageResult :=
  if severeSymptoms data || hairLossWithPain data then
    { result with
      referral_required := true
      severity_score := max result.severity_score 8
      reasoning := result.reasoning ++ urgentNotice }
  else result

/-- Second if-block of `_apply_referral_rules`: the chronic-condition override. -/
def applyChronicOverride (result : TriageResult) (data : TriageInput) : TriageResult :=
  if knownChronicCondition data && !result.referral_required then
    { result with
      referral_required := true
      reasoning := result.reasoning ++ monitorNotice }
  else result

/-- `_apply_referral_rules`: safety-first referral override, the two if-blocks
applied in source order to the mutable result. -/
def applyReferralRules (result : TriageResult) (data : TriageInput) : TriageResult :=
  applyChronicOverride (applySevereOverride result data) data

/-- `_format_output`: assemble the JSON-serializable output record. -/
def formatOutput (result : TriageResult) : TriageResult :=
  { condition_label := result.condition_label
    care_plan_id := result.care_plan_id
    referral_required := result.referral_required
    confidence_level := result.confidence_level
    reasoning := result.reasoning
    severity_score := result.severity_score }

/-- `classify` after input parsing: decision tree, then referral override,
then output formatting. -/
def classify (data : TriageInput) : TriageResult :=
  formatOutput (applyReferralRules (runDecisionTree data) data)

/-- Raw (pre-normalization) input mapping, with the Python `.get` defaults. -/
structure RawInput where
  symptoms : List String := []
  style_type : String := ""
  wash_frequency : String := ""
  product_use : List String := []
  known_issues : List String := []
  image_uploaded : Bool := false

/-- Python `s.lower().strip()`. -/
def normToken (s : String) : String := s.toLower.trim

/-- `_parse_input`: parse and normalize input data. -/
def parseInput (data : RawInput) : TriageInput :=
  { symptoms := data.symptoms.map normToken
    style_type := normToken data.style_type
    wash_frequency := normToken data.wash_frequency
    product_use := data.product_use.map normToken
    known_issues := data.known_issues.map normToken
    image_uploaded := data.image_uploaded }

/-- `MelaScalpTriageEngine.classify` / `classify_symptoms`: the full entry
point, parsing included. -/
def classifyRaw (data : RawInput) : TriageResult :=
  classify (parseInput data)

/-- Spec end-to-end example 1: itching and flaking with natural styling. -/
def exInput1 : TriageInput :=
  { symptoms := ["itching", "flaking"], style_type := "natural",
    wash_frequency := "weekly", product_use := ["oil"], known_issues := [] }

/-- Spec end-to-end example 3: dryness with a monthly wash routine. -/
def exInput3 : TriageInput :=
  { symptoms := ["dryness"], style_type := "none",
    wash_frequency := "monthly", product_use := [], known_issues := [] }

/-- Spec end-to-end example 4: bleeding as the sole symptom. -/
def exInput4 : TriageInput :=
  { symptoms := ["bleeding"], style_type := "none",
    wash_frequency := "weekly", product_use := [], known_issues := [] }

/-- A concrete input clearing both the Folliculitis and the
SeborrheicDermatitis thresholds. -/
def follSebInput : TriageInput :=
  { symptoms := ["bumps", "pain", "itching", "flaking"], style_type := "none",
    wash_frequency := "weekly", product_use := [], known_issues := [] }

/-- A concrete input with tenderness, hair loss and bumps under a protective
style. -/
def tensionBumpsInput : TriageInput :=
  { symptoms := ["tenderness", "hair_loss", "bumps"], style_type := "braids",
    wash_frequency := "weekly", product_use := [], known_issues := [] }

/-- A concrete input matching no condition rule. -/
def noMatchInput : TriageInput :=
  { symptoms := ["zzz", "zzz", "zzz"], style_type := "",
    wash_frequency := "", product_use := [], known_issues := [] }

/-- Two unrecognized symptom tokens with a monthly wash: the DryScalp rule
matches through its low-wash and minimal-symptom-count indicators. -/
def twoTokenInput : TriageInput :=
  { symptoms := ["aaa", "bbb"], style_type := "",
    wash_frequency := "monthly", product_use := [], known_issues := [] }

/-- `twoTokenInput` with one more unrecognized symptom token appended. -/
def threeTokenInput : TriageInput :=
  { symptoms := ["aaa", "bbb", "ccc"], style_type := "",
    wash_frequency := "monthly", product_use := [], known_issues := [] }

/-- `twoTokenInput` with its last symptom token duplicated. -/
def dupTokenInput : TriageInput :=
  { symptoms := ["aaa", "bbb", "bbb"], style_type := "",
    wash_frequency := "monthly", product_use := [], known_issues := [] }

/-- One unrecognized symptom token with a monthly wash and no products. -/
def prodOilBase : TriageInput :=
  { symptoms := ["xxx"], style_type := "",
    wash_frequency := "monthly", product_use := [], known_issues := [] }

/-- `prodOilBase` with the product token "foil" appended; "foil" is in no
fact set but contains "oil" as a substring. -/
def prodOilAdded : TriageInput :=
  { symptoms := ["xxx"], style_type := "",
    wash_frequency := "monthly", product_use := ["foil"], known_issues := [] }

/-- Flaking with two unrecognized product tokens. -/
def prodCountBase : TriageInput :=
  { symptoms := ["flaking"], style_type := "",
    wash_frequency := "weekly", product_use := ["aaa", "bbb"], known_issues := [] }

/-- `prodCountBase` with a third unrecognized product token appended. -/
def prodCountAdded : TriageInput :=
  { symptoms := ["flaking"], style_type := "",
    wash_frequency := "weekly", product_use := ["aaa", "bbb", "ccc"], known_issues := [] }

/-- The union of every symptom token list tested against `symptoms` anywhere
in the engine: all eight rules' indicator lists plus the referral override's
trigger lists.  A symptom token outside this list is unrecognized: no
membership test in the engine can see it. -/
def recognizedSymptomTokens : List String :=
  ["bumps", "pustules", "pimples", "small_bumps", "infected_bumps",
   "pain", "painful", "tenderness", "tender", "sore", "soreness",
   "redness", "swelling", "hot", "warm", "inflamed",
   "scales", "scaling", "thick_scales", "silvery_scales", "scale_patches", "plaques",
   "dryness", "dry", "very_dry", "cracking",
   "itching", "itchy", "irritation",
   "hair_loss", "thinning", "bald_spots", "edges_thinning", "breakage",
   "scratchy", "flaking", "flakes", "dandruff", "white_flakes", "yellow_flakes",
   "oily", "greasy", "oily_flakes", "red",
   "severe", "worsening", "bleeding", "crusting",
   "burning", "rash", "hives", "new_product", "recent_reaction", "sudden_onset",
   "pus", "buildup", "tight", "oozing", "spreading", "fever"]

/-! ### Helper lemmas about the embedded engine -/

theorem anyIn_of_mem {t : String} {toks l : List String} (h1 : t ∈ toks) (h2 : t ∈ l) :
    anyIn toks l = true :=
  List.any_eq_true.mpr ⟨t, h1, decide_eq_true h2⟩

theorem formatOutput_eq (r : TriageResult) : formatOutput r = r := rfl

theorem classify_eq (d : TriageInput) :
    classify d = applyReferralRules (runDecisionTree d) d := by
  unfold classify
  rw [formatOutput_eq]

theorem applySevere_label (r : TriageResult) (d : TriageInput) :
    (applySevereOverride r d).condition_label = r.condition_label := by
  unfold applySevereOverride
  split <;> rfl

theorem applySevere_care (r : TriageResult) (d : TriageInput) :
    (applySevereOverride r d).care_plan_id = r.care_plan_id := by
  unfold applySevereOverride
  split <;> rfl

theorem applySevere_conf (r : TriageResult) (d : TriageInput) :
    (applySevereOverride r d).confidence_level = r.confidence_level := by
  unfold applySevereOverride
  split <;> rfl

theorem applyChronic_label (r : TriageResult) (d : TriageInput) :
    (applyChronicOverride r d).condition_label = r.condition_label := by
  unfold applyChronicOverride
  split <;> rfl

theorem applyChronic_care (r : TriageResult) (d : TriageInput) :
    (applyChronicOverride r d).care_plan_id = r.care_plan_id := by
  unfold applyChronicOverride
  split <;> rfl

theorem applyChronic_conf (r : TriageResult) (d : TriageInput) :
    (applyChronicOverride r d).confidence_level = r.confidence_level := by
  unfold applyChronicOverride
  split <;> rfl

theorem applyChronic_severity (r : TriageResult) (d : TriageInput) :
    (applyChronicOverride r d).severity_score = r.severity_score := by
  unfold applyChronicOverride
  split <;> rfl

theorem applySevere_severity (r : TriageResult) (d : TriageInput) :
    (applySevereOverride r d).severity_score = r.severity_score ∨
    (applySevereOverride r d).severity_score = max r.severity_score 8 := by
  unfold applySevereOverride
  split
  · exact Or.inr rfl
  · exact Or.inl rfl

theorem applySevere_ref_true {r : TriageResult} (d : TriageInput)
    (h : r.referral_required = true) :
    (applySevereOverride r d).referral_required = true := by
  unfold applySevereOverride
  split
  · rfl
  · exact h

theorem applyChronic_ref_true {r : TriageResult} (d : TriageInput)
    (h : r.referral_required = true) :
    (applyChronicOverride r d).referral_required = true := by
  unfold applyChronicOverride
  split
  · rfl
  · exact h

theorem applyReferral_ref_true {r : TriageResult} (d : TriageInput)
    (h : r.referral_required = true) :
    (applyReferralRules r d).referral_required = true :=
  applyChronic_ref_true d (applySevere_ref_true d h)

theorem classify_label (d : TriageInput) :
    (classify d).condition_label = (runDecisionTree d).condition_label := by
  rw [classify_eq]
  unfold applyReferralRules
  rw [applyChronic_label, applySevere_label]

theorem classify_care (d : TriageInput) :
    (classify d).care_plan_id = (runDecisionTree d).care_plan_id := by
  rw [classify_eq]
  unfold applyReferralRules
  rw [applyChronic_care, applySevere_care]

theorem classify_conf (d : TriageInput) :
    (classify d).confidence_level = (runDecisionTree d).confidence_level := by
  rw [classify_eq]
  unfold applyReferralRules
  rw [applyChronic_conf, applySevere_conf]

theorem classify_severity_cases (d : TriageInput) :
    (classify d).severity_score = (runDecisionTree d).severity_score ∨
    (classify d).severity_score = max (runDecisionTree d).severity_score 8 := by
  rw [classify_eq]
  unfold applyReferralRules
  rw [applyChronic_severity]
  exact applySevere_severity _ _

theorem applyReferral_severe {r : TriageResult} {d : TriageInput}
    (h : (severeSymptoms d || hairLossWithPain d) = true) :
    applyReferralRules r d =
      { r with referral_required := true
               severity_score := max r.severity_score 8
               reasoning := r.reasoning ++ urgentNotice } := by
  unfold applyReferralRules applySevereOverride
  rw [if_pos h]
  unfold applyChronicOverride
  simp

theorem runDecisionTree_prop (P : TriageResult → Prop) (d : TriageInput)
    (h1 : ∀ r, checkFolliculitis d = some r → P r)
    (h2 : ∀ r, checkPsoriasis d = some r → P r)
    (h3 : ∀ r, checkTensionDamage d = some r → P r)
    (h4 : ∀ r, checkSeborrheicDermatitis d = some r → P r)
    (h5 : ∀ r, checkContactDermatitis d = some r → P r)
    (h6 : ∀ r, checkScalpAcne d = some r → P r)
    (h7 : ∀ r, checkProductBuildup d = some r → P r)
    (h8 : ∀ r, checkDryScalp d = some r → P r)
    (h9 : P (createUnclearResult d)) :
    P (runDecisionTree d) := by
  unfold runDecisionTree
  cases hc1 : checkFolliculitis d with
  | some r => exact h1 r hc1
  | none =>
    cases hc2 : checkPsoriasis d with
    | some r => exact h2 r hc2
    | none =>
      cases hc3 : checkTensionDamage d with
      | some r => exact h3 r hc3
      | none =>
        cases hc4 : checkSeborrheicDermatitis d with
        | some r => exact h4 r hc4
        | none =>
          cases hc5 : checkContactDermatitis d with
          | some r => exact h5 r hc5
          | none =>
            cases hc6 : checkScalpAcne d with
            | some r => exact h6 r hc6
            | none =>
              cases hc7 : checkProductBuildup d with
              | some r => exact h7 r hc7
              | none =>
                cases hc8 : checkDryScalp d with
                | some r => exact h8 r hc8
                | none => exact h9

theorem calcConf_mem (s m : Nat) :
    calculateConfidence s m = "low" ∨ calculateConfidence s m = "moderate" ∨
    calculateConfidence s m = "high" := by
  unfold calculateConfidence
  split
  · exact Or.inr (Or.inr rfl)
  · split
    · exact Or.inr (Or.inl rfl)
    · exact Or.inl rfl

theorem checkFolliculitis_some {d : TriageInput} {r : TriageResult}
    (h : checkFolliculitis d = some r) :
    r.condition_label = "folliculitis" ∧ r.care_plan_id = "CP-002" ∧
    r.referral_required = true ∧
    r.confidence_level = calculateConfidence (folliculitisScore d) 10 ∧
    r.severity_score = 8 := by
  unfold checkFolliculitis at h
  split at h
  · injection h with h
    subst h
    exact ⟨rfl, rfl, rfl, rfl, rfl⟩
  · exact Option.noConfusion h

theorem checkPsoriasis_some {d : TriageInput} {r : TriageResult}
    (h : checkPsoriasis d = some r) :
    r.condition_label = "psoriasis" ∧ r.care_plan_id = "CP-003" ∧
    r.referral_required = true ∧
    r.confidence_level = calculateConfidence (psoriasisScore d) 12 ∧
    r.severity_score = 7 := by
  unfold checkPsoriasis at h
  split at h
  · injection h with h
    subst h
    exact ⟨rfl, rfl, rfl, rfl, rfl⟩
  · exact Option.noConfusion h

theorem checkTensionDamage_some {d : TriageInput} {r : TriageResult}
    (h : checkTensionDamage d = some r) :
    r.condition_label = "tension_damage" ∧ r.care_plan_id = "CP-005" ∧
    r.referral_required = true ∧
    r.confidence_level = calculateConfidence (tensionScore d) 11 ∧
    r.severity_score = 7 := by
  unfold checkTensionDamage at h
  split at h
  · injection h with h
    subst h
    exact ⟨rfl, rfl, rfl, rfl, rfl⟩
  · exact Option.noConfusion h

theorem checkSeborrheicDermatitis_some {d : TriageInput} {r : TriageResult}
    (h : checkSeborrheicDermatitis d = some r) :
    r.condition_label = "seborrheic_dermatitis" ∧ r.care_plan_id = "CP-001" ∧
    r.referral_required = sebNeedsReferral d ∧
    r.confidence_level = calculateConfidence (sebScore d) 10 ∧
    r.severity_score = (if !sebNeedsReferral d then 4 else 6) := by
  unfold checkSeborrheicDermatitis at h
  split at h
  · injection h with h
    subst h
    exact ⟨rfl, rfl, rfl, rfl, rfl⟩
  · exact Option.noConfusion h

theorem checkContactDermatitis_some {d : TriageInput} {r : TriageResult}
    (h : checkContactDermatitis d = some r) :
    r.condition_label = "contact_dermatitis" ∧ r.care_plan_id = "CP-007" ∧
    r.referral_required = false ∧
    r.confidence_level = calculateConfidence (contactScore d) 7 ∧
    r.severity_score = 4 := by
  unfold checkContactDermatitis at h
  split at h
  · injection h with h
    subst h
    exact ⟨rfl, rfl, rfl, rfl, rfl⟩
  · exact Option.noConfusion h

theorem checkScalpAcne_some {d : TriageInput} {r : TriageResult}
    (h : checkScalpAcne d = some r) :
    r.condition_label = "scalp_acne" ∧ r.care_plan_id = "CP-004" ∧
    r.referral_required = false ∧
    r.confidence_level = calculateConfidence (acneScore d) 8 ∧
    r.severity_score = 3 := by
  unfold checkScalpAcne at h
  split at h
  · injection h with h
    subst h
    exact ⟨rfl, rfl, rfl, rfl, rfl⟩
  · exact Option.noConfusion h

theorem checkProductBuildup_some {d : TriageInput} {r : TriageResult}
    (h : checkProductBuildup d = some r) :
    r.condition_label = "product_buildup" ∧ r.care_plan_id = "CP-006" ∧
    r.referral_required = false ∧
    r.confidence_level = calculateConfidence (buildupScore d) 7 ∧
    r.severity_score = 2 := by
  unfold checkProductBuildup at h
  split at h
  · injection h with h
    subst h
    exact ⟨rfl, rfl, rfl, rfl, rfl⟩
  · exact Option.noConfusion h

theorem checkDryScalp_some {d : TriageInput} {r : TriageResult}
    (h : checkDryScalp d = some r) :
    r.condition_label = "dry_scalp" ∧ r.care_plan_id = "CP-006" ∧
    r.referral_required = false ∧
    r.confidence_level = "moderate" ∧
    r.severity_score = 2 := by
  unfold checkDryScalp at h
  split at h
  · injection h with h
    subst h
    exact ⟨rfl, rfl, rfl, rfl, rfl⟩
  · exact Option.noConfusion h

theorem runDecisionTree_shape (d : TriageInput) :
    (∃ c : ConditionLabel, (runDecisionTree d).condition_label = c.value ∧
      (runDecisionTree d).care_plan_id = CARE_PLANS c) ∧
    2 ≤ (runDecisionTree d).severity_score ∧
    (runDecisionTree d).severity_score ≤ 8 ∧
    ((runDecisionTree d).confidence_level = "low" ∨
     (runDecisionTree d).confidence_level = "moderate" ∨
     (runDecisionTree d).confidence_level = "high") ∧
    ((runDecisionTree d).referral_required = true ∨
     (runDecisionTree d).severity_score ≤ 4) := by
  apply runDecisionTree_prop (fun r =>
    (∃ c : ConditionLabel, r.condition_label = c.value ∧ r.care_plan_id = CARE_PLANS c) ∧
    2 ≤ r.severity_score ∧ r.severity_score ≤ 8 ∧
    (r.confidence_level = "low" ∨ r.confidence_level = "moderate" ∨
     r.confidence_level = "high") ∧
    (r.referral_required = true ∨ r.severity_score ≤ 4)) d
  · intro r hr
    obtain ⟨hl, hc, hrf, hcf, hs⟩ := checkFolliculitis_some hr
    refine ⟨⟨.FOLLICULITIS, hl, hc⟩, ?_, ?_, ?_, Or.inl hrf⟩
    · rw [hs]; norm_num
    · rw [hs]
    · rw [hcf]; exact calcConf_mem _ _
  · intro r hr
    obtain ⟨hl, hc, hrf, hcf, hs⟩ := checkPsoriasis_some hr
    refine ⟨⟨.PSORIASIS, hl, hc⟩, ?_, ?_, ?_, Or.inl hrf⟩
    · rw [hs]; norm_num
    · rw [hs]; norm_num
    · rw [hcf]; exact calcConf_mem _ _
  · intro r hr
    obtain ⟨hl, hc, hrf, hcf, hs⟩ := checkTensionDamage_some hr
    refine ⟨⟨.TENSION_DAMAGE, hl, hc⟩, ?_, ?_, ?_, Or.inl hrf⟩
    · rw [hs]; norm_num
    · rw [hs]; norm_num
    · rw [hcf]; exact calcConf_mem _ _
  · intro r hr
    obtain ⟨hl, hc, hrf, hcf, hs⟩ := checkSeborrheicDermatitis_some hr
    refine ⟨⟨.SEBORRHEIC_DERMATITIS, hl, hc⟩, ?_, ?_, ?_, ?_⟩
    · rw [hs]; cases sebNeedsReferral d <;> norm_num
    · rw [hs]; cases sebNeedsReferral d <;> norm_num
    · rw [hcf]; exact calcConf_mem _ _
    · cases hn : sebNeedsReferral d with
      | true => exact Or.inl (by rw [hrf, hn])
      | false => exact Or.inr (by rw [hs, hn]; norm_num)
  · intro r hr
    obtain ⟨hl, hc, hrf, hcf, hs⟩ := checkContactDermatitis_some hr
    refine ⟨⟨.CONTACT_DERMATITIS, hl, hc⟩, ?_, ?_, ?_, Or.inr ?_⟩
    · rw [hs]; norm_num
    · rw [hs]; norm_num
    · rw [hcf]; exact calcConf_mem _ _
    · rw [hs]
  · intro r hr
    obtain ⟨hl, hc, hrf, hcf, hs⟩ := checkScalpAcne_some hr
    refine ⟨⟨.SCALP_ACNE, hl, hc⟩, ?_, ?_, ?_, Or.inr ?_⟩
    · rw [hs]; norm_num
    · rw [hs]; norm_num
    · rw [hcf]; exact calcConf_mem _ _
    · rw [hs]; norm_num
  · intro r hr
    obtain ⟨hl, hc, hrf, hcf, hs⟩ := checkProductBuildup_some hr
    refine ⟨⟨.PRODUCT_BUILDUP, hl, hc⟩, ?_, ?_, ?_, Or.inr ?_⟩
    · rw [hs]
    · rw [hs]; norm_num
    · rw [hcf]; exact calcConf_mem _ _
    · rw [hs]; norm_num
  · intro r hr
    obtain ⟨hl, hc, hrf, hcf, hs⟩ := checkDryScalp_some hr
    refine ⟨⟨.DRY_SCALP, hl, hc⟩, ?_, ?_, Or.inr (Or.inl hcf), Or.inr ?_⟩
    · rw [hs]
    · rw [hs]; norm_num
    · rw [hs]; norm_num
  · exact ⟨⟨.UNCLEAR, rfl, rfl⟩, by norm_num [createUnclearResult],
      by norm_num [createUnclearResult], Or.inl rfl, Or.inl rfl⟩

theorem classify_severity_bounds (d : TriageInput) :
    2 ≤ (classify d).severity_score ∧ (classify d).severity_score ≤ 8 := by
  obtain ⟨-, h2, h8, -, -⟩ := runDecisionTree_shape d
  rcases classify_severity_cases d with h | h
  · rw [h]
    exact ⟨h2, h8⟩
  · rw [h]
    exact ⟨le_trans (by norm_num) (Nat.le_max_right _ _), Nat.max_le.mpr ⟨h8, le_refl 8⟩⟩

theorem classify_of_referral_false {d : TriageInput}
    (h : (classify d).referral_required = false) :
    classify d = runDecisionTree d := by
  rw [classify_eq] at h ⊢
  unfold applyReferralRules at h ⊢
  cases hs : (severeSymptoms d || hairLossWithPain d) with
  | true =>
    exfalso
    have h1 : (applySevereOverride (runDecisionTree d) d).referral_required = true := by
      unfold applySevereOverride
      rw [if_pos hs]
    rw [applyChronic_ref_true d h1] at h
    simp at h
  | false =>
    have h1 : applySevereOverride (runDecisionTree d) d = runDecisionTree d := by
      unfold applySevereOverride
      rw [hs]
      simp
    rw [h1] at h ⊢
    unfold applyChronicOverride at h ⊢
    cases hc : (knownChronicCondition d && !(runDecisionTree d).referral_required) with
    | true =>
      rw [if_pos hc] at h
      simp at h
    | false =>
      rw [if_neg (by simp [hc])]

theorem classify_referral_false_severity {d : TriageInput}
    (h : (classify d).referral_required = false) :
    (classify d).severity_score ≤ 4 := by
  have heq := classify_of_referral_false h
  rw [heq] at h ⊢
  rcases (runDecisionTree_shape d).2.2.2.2 with ht | hle
  · simp [ht] at h
  · exact hle

theorem classify_label_foll {d : TriageInput} (h : folliculitisScore d ≥ 5) :
    (classify d).condition_label = "folliculitis" := by
  rw [classify_label]
  unfold runDecisionTree checkFolliculitis
  rw [if_pos h]
  rfl

/-! ### Claim theorems -/

/-- C1: the rule chain commits to the first rule whose score clears its
threshold, in the fixed priority order starting with Folliculitis; any input
meeting both the Folliculitis threshold (score ≥ 5) and the
SeborrheicDermatitis threshold (score ≥ 4) is classified `folliculitis`. -/
theorem c1_priority_order_folliculitis_wins (d : TriageInput)
    (hf : folliculitisScore d ≥ 5) (_hs : sebScore d ≥ 4) :
    (classify d).condition_label = "folliculitis" :=
  classify_label_foll hf

/-- C1 witness: a concrete input clearing both thresholds classifies as
`folliculitis`. -/
theorem c1_priority_order_folliculitis_wins_witness :
    folliculitisScore follSebInput ≥ 5 ∧ sebScore follSebInput ≥ 4 ∧
    (classify follSebInput).condition_label = "folliculitis" :=
  ⟨by decide, by decide,
   c1_priority_order_folliculitis_wins follSebInput (by decide) (by decide)⟩

/-- C2: every classify result is well-formed: `condition_label` is one of the
9 enumerated values, `care_plan_id` is the static table entry for that label
(with `dry_scalp` and `product_buildup` both mapped to CP-006 and `unclear`
to CP-999), `severity_score` lies in [1,10], and `confidence_level` is one of
low/moderate/high. -/
theorem c2_output_wellformed (d : TriageInput) :
    (classify d).condition_label ∈
      ["seborrheic_dermatitis", "folliculitis", "psoriasis", "scalp_acne",
       "tension_damage", "product_buildup", "dry_scalp", "contact_dermatitis",
       "unclear"] ∧
    (∃ c : ConditionLabel, (classify d).condition_label = c.value ∧
      (classify d).care_plan_id = CARE_PLANS c) ∧
    CARE_PLANS ConditionLabel.DRY_SCALP = "CP-006" ∧
    CARE_PLANS ConditionLabel.PRODUCT_BUILDUP = "CP-006" ∧
    CARE_PLANS ConditionLabel.UNCLEAR = "CP-999" ∧
    1 ≤ (classify d).severity_score ∧ (classify d).severity_score ≤ 10 ∧
    ((classify d).confidence_level = "low" ∨
     (classify d).confidence_level = "moderate" ∨
     (classify d).confidence_level = "high") := by
  obtain ⟨⟨c, hl, hc⟩, -, -, hconf, -⟩ := runDecisionTree_shape d
  obtain ⟨hb2, hb8⟩ := classify_severity_bounds d
  refine ⟨?_, ⟨c, ?_, ?_⟩, rfl, rfl, rfl, by omega, by omega, ?_⟩
  · rw [classify_label, hl]
    cases c <;> decide
  · rw [classify_label]
    exact hl
  · rw [classify_care]
    exact hc
  · rw [classify_conf]
    exact hconf

/-- C3: whenever a severe-symptom trigger token is present (or hair loss
together with pain), the final result has `referral_required = true`,
`severity_score = max (base, 8)` (hence ≥ 8), and the base reasoning with the
fixed urgent-notice sentence appended, regardless of which rule or fallback
produced the base result. -/
theorem c3_severe_override (d : TriageInput)
    (h : (severeSymptoms d || hairLossWithPain d) = true) :
    (classify d).referral_required = true ∧
    (classify d).severity_score = max (runDecisionTree d).severity_score 8 ∧
    8 ≤ (classify d).severity_score ∧
    (classify d).reasoning = (runDecisionTree d).reasoning ++ urgentNotice := by
  rw [classify_eq, applyReferral_severe h]
  exact ⟨rfl, rfl, Nat.le_max_right _ _, rfl⟩

/-- C3 witness: the spec end-to-end example 4 (`symptoms = ["bleeding"]`)
triggers the override. -/
theorem c3_severe_override_witness :
    (severeSymptoms exInput4 || hairLossWithPain exInput4) = true ∧
    (classify exInput4).referral_required = true ∧
    8 ≤ (classify exInput4).severity_score :=
  ⟨by decide, (c3_severe_override exInput4 (by decide)).1,
   (c3_severe_override exInput4 (by decide)).2.2.1⟩

/-- C10: the final severity score always lies in the tighter range [2,8]:
every rule's base severity is at most 8 and at least 2, and the override only
applies `max (current, 8)`. -/
theorem c10_severity_in_two_to_eight (d : TriageInput) :
    2 ≤ (classify d).severity_score ∧ (classify d).severity_score ≤ 8 :=
  classify_severity_bounds d

/-- C4: adding a single severe-symptom trigger token to the symptoms of an
input whose result is not referred forces the referral flag to true (so it
never decreases) and never decreases the severity score, even though the
added token may change which rule matches. -/
theorem c4_monotonic_severe_token (d : TriageInput) (t : String)
    (ht : t ∈ severeSymptomTokens)
    (h : (classify d).referral_required = false) :
    (classify { d with symptoms := d.symptoms ++ [t] }).referral_required = true ∧
    (classify d).severity_score ≤
      (classify { d with symptoms := d.symptoms ++ [t] }).severity_score := by
  have hsev : (severeSymptoms { d with symptoms := d.symptoms ++ [t] } ||
      hairLossWithPain { d with symptoms := d.symptoms ++ [t] }) = true := by
    have hmem : t ∈ ({ d with symptoms := d.symptoms ++ [t] } : TriageInput).symptoms :=
      List.mem_append_right _ (List.mem_singleton.mpr rfl)
    have hss : severeSymptoms { d with symptoms := d.symptoms ++ [t] } = true :=
      anyIn_of_mem ht hmem
    rw [hss]
    rfl
  have hov := @applyReferral_severe
    (runDecisionTree { d with symptoms := d.symptoms ++ [t] })
    { d with symptoms := d.symptoms ++ [t] } hsev
  constructor
  · rw [classify_eq, hov]
  · rw [classify_eq { d with symptoms := d.symptoms ++ [t] }, hov]
    exact le_trans (classify_referral_false_severity h)
      (le_trans (by norm_num) (Nat.le_max_right _ _))

/-- C4 witness: the seborrheic-dermatitis example 1 input is not referred;
appending `bleeding` forces a referral and does not decrease severity. -/
theorem c4_monotonic_severe_token_witness :
    "bleeding" ∈ severeSymptomTokens ∧
    (classify exInput1).referral_required = false ∧
    (classify { exInput1 with symptoms := exInput1.symptoms ++ ["bleeding"] }).referral_required
      = true ∧
    (classify exInput1).severity_score ≤
      (classify { exInput1 with
        symptoms := exInput1.symptoms ++ ["bleeding"] }).severity_score :=
  ⟨by decide, by decide,
   (c4_monotonic_severe_token exInput1 "bleeding" (by decide) (by decide)).1,
   (c4_monotonic_severe_token exInput1 "bleeding" (by decide) (by decide)).2⟩

/-- C5: an input whose symptoms include tenderness, hair loss and bumps under
a protective style is never classified `tension_damage`: the bumps
disqualifier applies regardless of the tension score, and such an input is
captured by the earlier Folliculitis rule. -/
theorem c5_bumps_disqualify_tension (d : TriageInput)
    (h1 : "tenderness" ∈ d.symptoms) (_h2 : "hair_loss" ∈ d.symptoms)
    (h3 : "bumps" ∈ d.symptoms) (_h4 : d.style_type ∈ PROTECTIVE_STYLES) :
    (classify d).condition_label ≠ "tension_damage" := by
  have hb : follHasBumps d = true := anyIn_of_mem (by decide) h3
  have hp : follHasPain d = true := anyIn_of_mem (by decide) h1
  have hscore : folliculitisScore d ≥ 5 := by
    unfold folliculitisScore
    simp only [hb, hp, if_true]
    split <;> split <;> norm_num
  rw [classify_label_foll hscore]
  decide

/-- C5 witness: a concrete such input resolves to a label other than
`tension_damage`. -/
theorem c5_bumps_disqualify_tension_witness :
    "tenderness" ∈ tensionBumpsInput.symptoms ∧
    "hair_loss" ∈ tensionBumpsInput.symptoms ∧
    "bumps" ∈ tensionBumpsInput.symptoms ∧
    tensionBumpsInput.style_type ∈ PROTECTIVE_STYLES ∧
    (classify tensionBumpsInput).condition_label ≠ "tension_damage" :=
  ⟨by decide, by decide, by decide, by decide,
   c5_bumps_disqualify_tension tensionBumpsInput
     (by decide) (by decide) (by decide) (by decide)⟩

/-- C7: when all eight condition rules return none, the decision tree yields
the fixed unclear fallback (referral required, low confidence, severity 5,
fixed reasoning), and the final classify result keeps the unclear label, plan
CP-999, a forced referral, low confidence, and severity at least 5. -/
theorem c7_unclear_fallback (d : TriageInput)
    (h1 : checkFolliculitis d = none) (h2 : checkPsoriasis d = none)
    (h3 : checkTensionDamage d = none) (h4 : checkSeborrheicDermatitis d = none)
    (h5 : checkContactDermatitis d = none) (h6 : checkScalpAcne d = none)
    (h7 : checkProductBuildup d = none) (h8 : checkDryScalp d = none) :
    runDecisionTree d = createUnclearResult d ∧
    (runDecisionTree d).severity_score = 5 ∧
    (classify d).condition_label = "unclear" ∧
    (classify d).care_plan_id = "CP-999" ∧
    (classify d).referral_required = true ∧
    (classify d).confidence_level = "low" ∧
    5 ≤ (classify d).severity_score := by
  have hrdt : runDecisionTree d = createUnclearResult d := by
    unfold runDecisionTree
    rw [h1, h2, h3, h4, h5, h6, h7, h8]
  refine ⟨hrdt, by rw [hrdt]; rfl, ?_, ?_, ?_, ?_, ?_⟩
  · rw [classify_label, hrdt]
    rfl
  · rw [classify_care, hrdt]
    rfl
  · rw [classify_eq]
    exact applyReferral_ref_true d (by rw [hrdt]; rfl)
  · rw [classify_conf, hrdt]
    rfl
  · rcases classify_severity_cases d with hv | hv
    · rw [hv, hrdt]
      norm_num [createUnclearResult]
    · rw [hv, hrdt]
      exact le_trans (by norm_num) (Nat.le_max_right _ _)

/-- C7 witness: a concrete input matching no rule is resolved by the unclear
fallback with a forced referral. -/
theorem c7_unclear_fallback_witness :
    checkFolliculitis noMatchInput = none ∧ checkPsoriasis noMatchInput = none ∧
    checkTensionDamage noMatchInput = none ∧
    checkSeborrheicDermatitis noMatchInput = none ∧
    checkContactDermatitis noMatchInput = none ∧ checkScalpAcne noMatchInput = none ∧
    checkProductBuildup noMatchInput = none ∧ checkDryScalp noMatchInput = none ∧
    (classify noMatchInput).condition_label = "unclear" ∧
    (classify noMatchInput).referral_required = true :=
  ⟨by decide, by decide, by decide, by decide, by decide, by decide, by decide, by decide,
   (c7_unclear_fallback noMatchInput (by decide) (by decide) (by decide) (by decide)
     (by decide) (by decide) (by decide) (by decide)).2.2.1,
   (c7_unclear_fallback noMatchInput (by decide) (by decide) (by decide) (by decide)
     (by decide) (by decide) (by decide) (by decide)).2.2.2.2.1⟩

theorem classify_dry_label_conf (d : TriageInput)
    (h : (classify d).condition_label = "dry_scalp") :
    (classify d).confidence_level = "moderate" := by
  rw [classify_label] at h
  rw [classify_conf]
  revert h
  apply runDecisionTree_prop
    (fun r => r.condition_label = "dry_scalp" → r.confidence_level = "moderate") d
  · intro r hr h
    rw [(checkFolliculitis_some hr).1] at h
    exact absurd h (by decide)
  · intro r hr h
    rw [(checkPsoriasis_some hr).1] at h
    exact absurd h (by decide)
  · intro r hr h
    rw [(checkTensionDamage_some hr).1] at h
    exact absurd h (by decide)
  · intro r hr h
    rw [(checkSeborrheicDermatitis_some hr).1] at h
    exact absurd h (by decide)
  · intro r hr h
    rw [(checkContactDermatitis_some hr).1] at h
    exact absurd h (by decide)
  · intro r hr h
    rw [(checkScalpAcne_some hr).1] at h
    exact absurd h (by decide)
  · intro r hr h
    rw [(checkProductBuildup_some hr).1] at h
    exact absurd h (by decide)
  · intro r hr _
    exact (checkDryScalp_some hr).2.2.2.1
  · intro h
    have h2 : "unclear" = "dry_scalp" := h
    exact absurd h2 (by decide)

/-- C6: every matched rule except DryScalp computes its confidence from the
shared banding calculator applied to its score and fixed max score (bands:
high at 70 percent, moderate at 40 percent, low below); the DryScalp rule
bypasses the calculator and always reports moderate, as exercised by the spec
end-to-end example 3. -/
theorem c6_confidence_banding :
    (∀ s m : Nat, (70 * m ≤ 100 * s → calculateConfidence s m = "high") ∧
      (40 * m ≤ 100 * s → 100 * s < 70 * m → calculateConfidence s m = "moderate") ∧
      (100 * s < 40 * m → calculateConfidence s m = "low")) ∧
    (∀ d r, checkFolliculitis d = some r →
      r.confidence_level = calculateConfidence (folliculitisScore d) 10) ∧
    (∀ d r, checkPsoriasis d = some r →
      r.confidence_level = calculateConfidence (psoriasisScore d) 12) ∧
    (∀ d r, checkTensionDamage d = some r →
      r.confidence_level = calculateConfidence (tensionScore d) 11) ∧
    (∀ d r, checkSeborrheicDermatitis d = some r →
      r.confidence_level = calculateConfidence (sebScore d) 10) ∧
    (∀ d r, checkContactDermatitis d = some r →
      r.confidence_level = calculateConfidence (contactScore d) 7) ∧
    (∀ d r, checkScalpAcne d = some r →
      r.confidence_level = calculateConfidence (acneScore d) 8) ∧
    (∀ d r, checkProductBuildup d = some r →
      r.confidence_level = calculateConfidence (buildupScore d) 7) ∧
    (∀ d r, checkDryScalp d = some r → r.confidence_level = "moderate") ∧
    (∀ d, (classify d).condition_label = "dry_scalp" →
      (classify d).confidence_level = "moderate") ∧
    ((classify exInput3).condition_label = "dry_scalp" ∧
     (classify exInput3).confidence_level = "moderate") := by
  refine ⟨?_, ?_, ?_, ?_, ?_, ?_, ?_, ?_, ?_, ?_, by decide, by decide⟩
  · intro s m
    refine ⟨?_, ?_, ?_⟩
    · intro h
      unfold calculateConfidence
      rw [if_pos h]
      rfl
    · intro h1 h2
      unfold calculateConfidence
      rw [if_neg (not_le.mpr h2), if_pos h1]
      rfl
    · intro h
      unfold calculateConfidence
      rw [if_neg (not_le.mpr (lt_of_lt_of_le h (by omega))), if_neg (not_le.mpr h)]
      rfl
  · exact fun d r hr => (checkFolliculitis_some hr).2.2.2.1
  · exact fun d r hr => (checkPsoriasis_some hr).2.2.2.1
  · exact fun d r hr => (checkTensionDamage_some hr).2.2.2.1
  · exact fun d r hr => (checkSeborrheicDermatitis_some hr).2.2.2.1
  · exact fun d r hr => (checkContactDermatitis_some hr).2.2.2.1
  · exact fun d r hr => (checkScalpAcne_some hr).2.2.2.1
  · exact fun d r hr => (checkProductBuildup_some hr).2.2.2.1
  · exact fun d r hr => (checkDryScalp_some hr).2.2.2.1
  · exact classify_dry_label_conf

/-- C6 witness: the banding and the bypass evaluated at concrete points. -/
theorem c6_confidence_banding_witness :
    calculateConfidence 7 10 = "high" ∧ calculateConfidence 4 10 = "moderate" ∧
    (classify exInput3).confidence_level = "moderate" :=
  ⟨(c6_confidence_banding.1 7 10).1 (by norm_num),
   (c6_confidence_banding.1 4 10).2.1 (by norm_num) (by norm_num),
   c6_confidence_banding.2.2.2.2.2.2.2.2.2.1 exInput3 (by decide)⟩

theorem anyIn_congr {l₁ l₂ : List String} :
    ∀ {toks : List String}, (∀ x ∈ toks, (x ∈ l₁ ↔ x ∈ l₂)) →
      anyIn toks l₁ = anyIn toks l₂
  | [], _ => rfl
  | s :: rest, h => by
    unfold anyIn
    simp only [List.any_cons]
    rw [decide_eq_decide.mpr (h s (List.mem_cons_self s rest))]
    have ih := @anyIn_congr l₁ l₂ rest
      (fun x hx => h x (List.mem_cons_of_mem s hx))
    unfold anyIn at ih
    rw [ih]

theorem any_perm {l₁ l₂ : List String} {p : String → Bool} (h : l₁.Perm l₂) :
    l₁.any p = l₂.any p := by
  apply Bool.eq_iff_iff.mpr
  simp only [List.any_eq_true]
  constructor
  · rintro ⟨x, hx, hp⟩
    exact ⟨x, h.mem_iff.mp hx, hp⟩
  · rintro ⟨x, hx, hp⟩
    exact ⟨x, h.mem_iff.mpr hx, hp⟩

theorem usesHeavy_eq_anyIn (pu : List String) :
    usesHeavy pu = anyIn HEAVY_PRODUCTS pu := by
  unfold usesHeavy anyIn
  apply Bool.eq_iff_iff.mpr
  simp only [List.any_eq_true, decide_eq_true_eq]
  constructor
  · rintro ⟨x, hx, hh⟩
    exact ⟨x, hh, hx⟩
  · rintro ⟨x, hx, hh⟩
    exact ⟨x, hh, hx⟩

theorem classify_congr (sy₁ sy₂ : List String) (st wf : String)
    (pu₁ pu₂ ki : List String) (im : Bool)
    (hmem : ∀ s ∈ recognizedSymptomTokens, (s ∈ sy₁ ↔ s ∈ sy₂))
    (hlen : sy₁.length ≤ 2 ↔ sy₂.length ≤ 2)
    (hpu : ∀ p ∈ HEAVY_PRODUCTS, (p ∈ pu₁ ↔ p ∈ pu₂))
    (hoil : pu₁.any (fun p => containsOil p) = pu₂.any (fun p => containsOil p))
    (hpu3 : pu₁.length ≥ 3 ↔ pu₂.length ≥ 3) :
    classify ⟨sy₁, st, wf, pu₁, ki, im⟩ = classify ⟨sy₂, st, wf, pu₂, ki, im⟩ := by
  have hA : ∀ toks : List String, (∀ x ∈ toks, x ∈ recognizedSymptomTokens) →
      anyIn toks sy₁ = anyIn toks sy₂ :=
    fun toks hsub => anyIn_congr (fun x hx => hmem x (hsub x hx))
  have hD : ∀ s : String, s ∈ recognizedSymptomTokens →
      decide (s ∈ sy₁) = decide (s ∈ sy₂) :=
    fun s hs => decide_eq_decide.mpr (hmem s hs)
  have hUH : usesHeavy pu₁ = usesHeavy pu₂ := by
    rw [usesHeavy_eq_anyIn, usesHeavy_eq_anyIn]
    exact anyIn_congr hpu
  have hB1 : follHasBumps ⟨sy₁, st, wf, pu₁, ki, im⟩ =
      follHasBumps ⟨sy₂, st, wf, pu₂, ki, im⟩ :=
    hA ["bumps", "pustules", "pimples", "small_bumps", "infected_bumps"] (by decide)
  have hP1 : follHasPain ⟨sy₁, st, wf, pu₁, ki, im⟩ =
      follHasPain ⟨sy₂, st, wf, pu₂, ki, im⟩ :=
    hA ["pain", "painful", "tenderness", "tender", "sore", "soreness"] (by decide)
  have hI1 : follHasInflammation ⟨sy₁, st, wf, pu₁, ki, im⟩ =
      follHasInflammation ⟨sy₂, st, wf, pu₂, ki, im⟩ :=
    hA ["redness", "swelling", "hot", "warm", "inflamed"] (by decide)
  have hSc : psoHasScales ⟨sy₁, st, wf, pu₁, ki, im⟩ =
      psoHasScales ⟨sy₂, st, wf, pu₂, ki, im⟩ :=
    hA ["scales", "scaling", "thick_scales", "silvery_scales", "scale_patches", "plaques"]
      (by decide)
  have hDr : psoHasDryness ⟨sy₁, st, wf, pu₁, ki, im⟩ =
      psoHasDryness ⟨sy₂, st, wf, pu₂, ki, im⟩ :=
    hA ["dryness", "dry", "very_dry", "cracking"] (by decide)
  have hIt : psoHasItching ⟨sy₁, st, wf, pu₁, ki, im⟩ =
      psoHasItching ⟨sy₂, st, wf, pu₂, ki, im⟩ :=
    hA ["itching", "itchy", "irritation"] (by decide)
  have hTT : tenHasTenderness ⟨sy₁, st, wf, pu₁, ki, im⟩ =
      tenHasTenderness ⟨sy₂, st, wf, pu₂, ki, im⟩ :=
    hA ["tenderness", "tender", "sore", "soreness", "pain", "painful"] (by decide)
  have hHL : tenHasHairLoss ⟨sy₁, st, wf, pu₁, ki, im⟩ =
      tenHasHairLoss ⟨sy₂, st, wf, pu₂, ki, im⟩ :=
    hA ["hair_loss", "thinning", "bald_spots", "edges_thinning", "breakage"] (by decide)
  have hTB : tenHasBumps ⟨sy₁, st, wf, pu₁, ki, im⟩ =
      tenHasBumps ⟨sy₂, st, wf, pu₂, ki, im⟩ :=
    hA ["bumps", "pustules", "pimples"] (by decide)
  have hSI : sebHasItching ⟨sy₁, st, wf, pu₁, ki, im⟩ =
      sebHasItching ⟨sy₂, st, wf, pu₂, ki, im⟩ :=
    hA ["itching", "itchy", "irritation", "scratchy"] (by decide)
  have hSF : sebHasFlaking ⟨sy₁, st, wf, pu₁, ki, im⟩ =
      sebHasFlaking ⟨sy₂, st, wf, pu₂, ki, im⟩ :=
    hA ["flaking", "flakes", "dandruff", "white_flakes", "yellow_flakes"] (by decide)
  have hSO : sebHasOily ⟨sy₁, st, wf, pu₁, ki, im⟩ =
      sebHasOily ⟨sy₂, st, wf, pu₂, ki, im⟩ :=
    hA ["oily", "greasy", "oily_flakes"] (by decide)
  have hSR : sebHasRedness ⟨sy₁, st, wf, pu₁, ki, im⟩ =
      sebHasRedness ⟨sy₂, st, wf, pu₂, ki, im⟩ := by
    unfold sebHasRedness
    dsimp only
    rw [hD "redness" (by decide), hD "red" (by decide)]
  have hCI : conHasItching ⟨sy₁, st, wf, pu₁, ki, im⟩ =
      conHasItching ⟨sy₂, st, wf, pu₂, ki, im⟩ :=
    hA ["itching", "itchy", "burning"] (by decide)
  have hCR : conHasRedness ⟨sy₁, st, wf, pu₁, ki, im⟩ =
      conHasRedness ⟨sy₂, st, wf, pu₂, ki, im⟩ :=
    hA ["redness", "red", "inflamed"] (by decide)
  have hCB : conHasBumps ⟨sy₁, st, wf, pu₁, ki, im⟩ =
      conHasBumps ⟨sy₂, st, wf, pu₂, ki, im⟩ :=
    hA ["bumps", "rash", "hives"] (by decide)
  have hRC : conRecentChange ⟨sy₁, st, wf, pu₁, ki, im⟩ =
      conRecentChange ⟨sy₂, st, wf, pu₂, ki, im⟩ :=
    hA ["new_product", "recent_reaction", "sudden_onset"] (by decide)
  have hAB : acneHasBumps ⟨sy₁, st, wf, pu₁, ki, im⟩ =
      acneHasBumps ⟨sy₂, st, wf, pu₂, ki, im⟩ :=
    hA ["bumps", "pimples", "small_bumps"] (by decide)
  have hAO : acneHasOily ⟨sy₁, st, wf, pu₁, ki, im⟩ =
      acneHasOily ⟨sy₂, st, wf, pu₂, ki, im⟩ :=
    hA ["oily", "greasy"] (by decide)
  have hANP : acneNoPain ⟨sy₁, st, wf, pu₁, ki, im⟩ =
      acneNoPain ⟨sy₂, st, wf, pu₂, ki, im⟩ :=
    congrArg (fun b => !b) (hA ["pain", "painful", "tender", "sore"] (by decide))
  have hPBF : pbHasFlaking ⟨sy₁, st, wf, pu₁, ki, im⟩ =
      pbHasFlaking ⟨sy₂, st, wf, pu₂, ki, im⟩ :=
    hA ["flaking", "flakes", "buildup"] (by decide)
  have hPBI : pbHasItching ⟨sy₁, st, wf, pu₁, ki, im⟩ =
      pbHasItching ⟨sy₂, st, wf, pu₂, ki, im⟩ := by
    unfold pbHasItching
    dsimp only
    rw [hD "itching" (by decide), hD "itchy" (by decide)]
  have hDD : dryHasDryness ⟨sy₁, st, wf, pu₁, ki, im⟩ =
      dryHasDryness ⟨sy₂, st, wf, pu₂, ki, im⟩ :=
    hA ["dryness", "dry", "tight", "flaking"] (by decide)
  have hMS : minimalSymptoms ⟨sy₁, st, wf, pu₁, ki, im⟩ =
      minimalSymptoms ⟨sy₂, st, wf, pu₂, ki, im⟩ :=
    decide_eq_decide.mpr hlen
  have hNO : noOilProduct ⟨sy₁, st, wf, pu₁, ki, im⟩ =
      noOilProduct ⟨sy₂, st, wf, pu₂, ki, im⟩ :=
    congrArg (fun b => !b) hoil
  have hPS : hasProtectiveStyle ⟨sy₁, st, wf, pu₁, ki, im⟩ =
      hasProtectiveStyle ⟨sy₂, st, wf, pu₂, ki, im⟩ := rfl
  have hKP : knownPsoriasis ⟨sy₁, st, wf, pu₁, ki, im⟩ =
      knownPsoriasis ⟨sy₂, st, wf, pu₂, ki, im⟩ := rfl
  have hLW : lowWash ⟨sy₁, st, wf, pu₁, ki, im⟩ =
      lowWash ⟨sy₂, st, wf, pu₂, ki, im⟩ := rfl
  have hCU : createUnclearResult ⟨sy₁, st, wf, pu₁, ki, im⟩ =
      createUnclearResult ⟨sy₂, st, wf, pu₂, ki, im⟩ := rfl
  have hcf : checkFolliculitis ⟨sy₁, st, wf, pu₁, ki, im⟩ =
      checkFolliculitis ⟨sy₂, st, wf, pu₂, ki, im⟩ := by
    unfold checkFolliculitis folliculitisScore
    dsimp only
    rw [hB1, hP1, hI1, hPS]
  have hcp : checkPsoriasis ⟨sy₁, st, wf, pu₁, ki, im⟩ =
      checkPsoriasis ⟨sy₂, st, wf, pu₂, ki, im⟩ := by
    unfold checkPsoriasis psoriasisScore
    try dsimp only
    rw [hSc, hDr, hIt, hKP]
  have hct : checkTensionDamage ⟨sy₁, st, wf, pu₁, ki, im⟩ =
      checkTensionDamage ⟨sy₂, st, wf, pu₂, ki, im⟩ := by
    unfold checkTensionDamage tensionScore
    dsimp only
    rw [hTT, hHL, hTB, hPS]
  have hcs : checkSeborrheicDermatitis ⟨sy₁, st, wf, pu₁, ki, im⟩ =
      checkSeborrheicDermatitis ⟨sy₂, st, wf, pu₂, ki, im⟩ := by
    unfold checkSeborrheicDermatitis sebScore sebNeedsReferral
    dsimp only
    rw [hSI, hSF, hSO, hSR,
      hA ["severe", "worsening", "bleeding", "crusting"] (by decide)]
  have hcc : checkContactDermatitis ⟨sy₁, st, wf, pu₁, ki, im⟩ =
      checkContactDermatitis ⟨sy₂, st, wf, pu₂, ki, im⟩ := by
    unfold checkContactDermatitis contactScore
    dsimp only
    rw [hCI, hCR, hCB, hRC, hUH, hA ["pustules", "pus"] (by decide)]
  have hca : checkScalpAcne ⟨sy₁, st, wf, pu₁, ki, im⟩ =
      checkScalpAcne ⟨sy₂, st, wf, pu₂, ki, im⟩ := by
    unfold checkScalpAcne acneScore
    dsimp only
    rw [hAB, hAO, hANP, hUH, hPS]
  have hcpb : checkProductBuildup ⟨sy₁, st, wf, pu₁, ki, im⟩ =
      checkProductBuildup ⟨sy₂, st, wf, pu₂, ki, im⟩ := by
    unfold checkProductBuildup buildupScore
    dsimp only
    rw [hPBF, hPBI, hUH, hLW]
    simp only [hpu3]
  have hcd : checkDryScalp ⟨sy₁, st, wf, pu₁, ki, im⟩ =
      checkDryScalp ⟨sy₂, st, wf, pu₂, ki, im⟩ := by
    unfold checkDryScalp dryScore
    try dsimp only
    rw [hDD, hMS, hNO, hLW]
  have hrdt : runDecisionTree ⟨sy₁, st, wf, pu₁, ki, im⟩ =
      runDecisionTree ⟨sy₂, st, wf, pu₂, ki, im⟩ := by
    unfold runDecisionTree
    rw [hcf, hcp, hct, hcs, hcc, hca, hcpb, hcd, hCU]
  rw [classify_eq, classify_eq, hrdt]
  unfold applyReferralRules applySevereOverride applyChronicOverride
  unfold severeSymptoms hairLossWithPain knownChronicCondition
  dsimp only
  rw [hA severeSymptomTokens (by decide), hA ["hair_loss", "bald_spots"] (by decide),
    hA ["pain", "tenderness"] (by decide)]

/-- C8 counterexample: tokens absent from every indicator token list and
every fact set are not always inert.  Appending the symptom token "ccc" to a
two-symptom input flips `dry_scalp` to `unclear` (the DryScalp rule counts
symptoms); appending the product token "foil" flips `dry_scalp` to `unclear`
(the DryScalp rule substring-tests "oil"); appending a third unrecognized
product token flips `dry_scalp` to `product_buildup` (the ProductBuildup
rule counts products). -/
theorem c8_unrecognized_token_changes_output :
    "ccc" ∉ recognizedSymptomTokens ∧ "ccc" ∉ PROTECTIVE_STYLES ∧
    "ccc" ∉ LOW_WASH_FREQUENCIES ∧ "ccc" ∉ HEAVY_PRODUCTS ∧
    threeTokenInput.symptoms = twoTokenInput.symptoms ++ ["ccc"] ∧
    threeTokenInput.style_type = twoTokenInput.style_type ∧
    threeTokenInput.wash_frequency = twoTokenInput.wash_frequency ∧
    threeTokenInput.product_use = twoTokenInput.product_use ∧
    threeTokenInput.known_issues = twoTokenInput.known_issues ∧
    (classify twoTokenInput).condition_label = "dry_scalp" ∧
    (classify threeTokenInput).condition_label = "unclear" ∧
    classify threeTokenInput ≠ classify twoTokenInput ∧
    "foil" ∉ HEAVY_PRODUCTS ∧ "foil" ∉ recognizedSymptomTokens ∧
    prodOilAdded.product_use = prodOilBase.product_use ++ ["foil"] ∧
    prodOilAdded.symptoms = prodOilBase.symptoms ∧
    (classify prodOilBase).condition_label = "dry_scalp" ∧
    (classify prodOilAdded).condition_label = "unclear" ∧
    classify prodOilAdded ≠ classify prodOilBase ∧
    "ccc" ∉ HEAVY_PRODUCTS ∧ containsOil "ccc" = false ∧
    prodCountAdded.product_use = prodCountBase.product_use ++ ["ccc"] ∧
    prodCountAdded.symptoms = prodCountBase.symptoms ∧
    (classify prodCountBase).condition_label = "dry_scalp" ∧
    (classify prodCountAdded).condition_label = "product_buildup" ∧
    classify prodCountAdded ≠ classify prodCountBase :=
  ⟨by decide, by decide, by decide, by decide, by decide, rfl, rfl, rfl, rfl,
   by decide, by decide, by decide,
   by decide, by decide, by decide, rfl, by decide, by decide, by decide,
   by decide, by decide, by decide, rfl, by decide, by decide, by decide⟩

/-- C8 (amended): an unrecognized token is inert except through the
collection-size indicators: appending an unrecognized symptom token leaves
classify unchanged provided the symptom count is not exactly 2 (the DryScalp
minimal-symptom boundary), and appending an unrecognized product token that
does not contain "oil" leaves classify unchanged provided the product count
is not exactly 2 (the ProductBuildup multiple-products boundary). -/
theorem c8_amended_unrecognized_token_inert (d : TriageInput) (t : String) :
    (t ∉ recognizedSymptomTokens → d.symptoms.length ≠ 2 →
      classify { d with symptoms := d.symptoms ++ [t] } = classify d) ∧
    (t ∉ HEAVY_PRODUCTS → containsOil t = false → d.product_use.length ≠ 2 →
      classify { d with product_use := d.product_use ++ [t] } = classify d) := by
  obtain ⟨sy, st, wf, pu, ki, im⟩ := d
  constructor
  · intro hu hlen
    have hlen' : sy.length ≠ 2 := hlen
    exact classify_congr (sy ++ [t]) sy st wf pu pu ki im
      (fun s hs => by
        have hst : s ≠ t := fun he => hu (he ▸ hs)
        simp [List.mem_append, hst])
      (by
        rw [List.length_append, List.length_singleton]
        omega)
      (fun p _ => Iff.rfl) rfl Iff.rfl
  · intro hH hOil hlen
    have hlen' : pu.length ≠ 2 := hlen
    exact classify_congr sy sy st wf (pu ++ [t]) pu ki im
      (fun s _ => Iff.rfl) Iff.rfl
      (fun p hp => by
        have hpt : p ≠ t := fun he => hH (he ▸ hp)
        simp [List.mem_append, hpt])
      (by
        rw [List.any_append]
        simp [hOil])
      (by
        rw [List.length_append, List.length_singleton]
        omega)

/-- C8 witness: appending "qqq" to the example-3 input (one symptom, no
products) leaves the classification unchanged, on both collections. -/
theorem c8_amended_unrecognized_token_inert_witness :
    "qqq" ∉ recognizedSymptomTokens ∧ exInput3.symptoms.length ≠ 2 ∧
    classify { exInput3 with symptoms := exInput3.symptoms ++ ["qqq"] } = classify exInput3 ∧
    "qqq" ∉ HEAVY_PRODUCTS ∧ containsOil "qqq" = false ∧
    exInput3.product_use.length ≠ 2 ∧
    classify { exInput3 with product_use := exInput3.product_use ++ ["qqq"] } =
      classify exInput3 :=
  ⟨by decide, by decide,
   (c8_amended_unrecognized_token_inert exInput3 "qqq").1 (by decide) (by decide),
   by decide, by decide, by decide,
   (c8_amended_unrecognized_token_inert exInput3 "qqq").2 (by decide) (by decide) (by decide)⟩

/-- C9 counterexample: duplicating a symptom token (same distinct tokens,
`dedup` equal) changes the classification from `dry_scalp` to `unclear`,
because the DryScalp rule tests `len(symptoms) <= 2` on the raw list. -/
theorem c9_duplicates_change_output :
    dupTokenInput.symptoms.dedup = twoTokenInput.symptoms.dedup ∧
    dupTokenInput.style_type = twoTokenInput.style_type ∧
    dupTokenInput.wash_frequency = twoTokenInput.wash_frequency ∧
    dupTokenInput.product_use = twoTokenInput.product_use ∧
    dupTokenInput.known_issues = twoTokenInput.known_issues ∧
    (classify twoTokenInput).condition_label = "dry_scalp" ∧
    (classify dupTokenInput).condition_label = "unclear" ∧
    classify dupTokenInput ≠ classify twoTokenInput :=
  ⟨by decide, rfl, rfl, rfl, rfl, by decide, by decide, by decide⟩

/-- C9 (amended): classify is invariant under reordering (permutation) of the
symptoms and product_use lists; duplicates however do not collapse, because
the DryScalp and ProductBuildup rules count raw list lengths. -/
theorem c9_amended_permutation_invariance (d : TriageInput) (sy pu : List String)
    (hs : d.symptoms.Perm sy) (hp : d.product_use.Perm pu) :
    classify { d with symptoms := sy, product_use := pu } = classify d := by
  obtain ⟨sy₀, st, wf, pu₀, ki, im⟩ := d
  have hs' : List.Perm sy₀ sy := hs
  have hp' : List.Perm pu₀ pu := hp
  exact classify_congr sy sy₀ st wf pu pu₀ ki im
    (fun s _ => (hs'.mem_iff).symm)
    (by rw [hs'.length_eq])
    (fun p _ => (hp'.mem_iff).symm)
    (any_perm hp'.symm)
    (by rw [hp'.length_eq])

/-- C9 witness: reordering the example-1 symptom list leaves the
classification unchanged. -/
theorem c9_amended_permutation_invariance_witness :
    List.Perm exInput1.symptoms ["flaking", "itching"] ∧
    List.Perm exInput1.product_use ["oil"] ∧
    classify { exInput1 with symptoms := ["flaking", "itching"], product_use := ["oil"] } =
      classify exInput1 :=
  ⟨by decide, by decide,
   c9_amended_permutation_invariance exInput1 ["flaking", "itching"] ["oil"]
     (by decide) (by decide)⟩
